import Mathlib

/-!
Verification of the pcdaemon link layer, packet router and the basys3
driver.

The definitions below are a shallow embedding of the C sources:

* `crc16step`, `crc16`           from `crc16()` in src/daemon/core.c
* `stuffByte`, `slipstuff`, `crcBytes`, `pctoslip`
                                 from `pctoslip()` in src/daemon/core.c
* `slipScan`                     from the byte-scanning loop of
                                 `receivePkt()` in src/daemon/core.c
* `dispatch_bogus`, `dispatch_packet`
                                 from `dispatch_packet()` in src/daemon/core.c
* `pc_tx_force`, `pc_tx_pkt`     from `pc_tx_pkt()` in src/daemon/core.c
* `basys3_packet_hdlr`, `basys3_get_switches`
                                 from `packet_hdlr()` and `usercmd()` in
                                 src/fpga-drivers/basys3/basys3.c
* `hostserial_packet_hdlr`       from `packet_hdlr()` in the hostserial
                                 driver

Machine integers are modelled as `Nat` with explicit `% 2 ^ w` where the
C code relies on fixed-width overflow (the `uint16_t`/`uint8_t` variables
of `crc16`); values that the C code holds in `int` and compares against
negative numbers are modelled as `Int`.
-/

namespace Pcdaemon

/-! ### Constants from core.h and core.c -/

/-- SLIP frame delimiter (core.h: SLIP_END = 192). -/
def SLIP_END : Nat := 192

/-- SLIP escape byte (core.h: SLIP_ESC = 219). -/
def SLIP_ESC : Nat := 219

/-- In-packet replacement for an escaped END (core.h: INPKT_END = 220). -/
def INPKT_END : Nat := 220

/-- In-packet replacement for an escaped ESC (core.h: INPKT_ESC = 221). -/
def INPKT_ESC : Nat := 221

/-- Number of FPGA cores (core.h: NUM_CORE = 16). -/
def NUM_CORE : Nat := 16

/-- Maximum PC protocol packet size (core.h: PC_PKTLEN = 514). -/
def PC_PKTLEN : Nat := 514

/-- cmd bit 7 mask: response type (core.h). -/
def PC_CMD_AUTO_MASK : Nat := 0x80

/-- cmd value compared against for the auto/response test (core.h). -/
def PC_CMD_AUTO_DATA : Nat := 0x00

/-- cmd op bits: read (core.h). -/
def PC_CMD_OP_READ : Nat := 0x04

/-- cmd op bits: write (core.h). -/
def PC_CMD_OP_WRITE : Nat := 0x08

/-- cmd op field mask (core.h). -/
def PC_CMD_OP_MASK : Nat := 0x0C

/-- cmd bit 1: auto-increment register (core.h). -/
def PC_CMD_AUTOINC : Nat := 0x02

/-- SLIP decoder state: skipping leading zero bytes (core.c). -/
def SKIP_FIRST_ZEROES : Nat := 0

/-- SLIP decoder state: declared but never entered by the code (core.c). -/
def AWAITING_PKT : Nat := 1

/-- SLIP decoder state: inside a frame (core.c). -/
def IN_PACKET : Nat := 2

/-- SLIP decoder state: just saw an unescaped ESC (core.c). -/
def INESCAPE : Nat := 3

/-! ### CRC-16/XMODEM, from crc16() in core.c -/

/-- One iteration of the `while (length --)` loop of `crc16()` in core.c:
`x = (crc >> 8) ^ c; x ^= x >> 4;`
`crc = (crc << 8) ^ (x << 12) ^ (x << 5) ^ x;`
with `c`, `x` held in `uint8_t` and `crc` in `uint16_t`, hence the
explicit `% 256` and `% 65536` truncations. -/
def crc16step (crc b : Nat) : Nat :=
  let c := b % 256
  let x := ((crc >>> 8) ^^^ c) % 256
  let x2 := (x ^^^ (x >>> 4)) % 256
  ((((crc <<< 8) ^^^ (x2 <<< 12)) ^^^ (x2 <<< 5)) ^^^ x2) % 65536

/-- `crc16(pkt, length)` from core.c: fold the step over the bytes with
seed 0x0000. -/
def crc16 (pkt : List Nat) : Nat := pkt.foldl crc16step 0

/-! ### SLIP encoding, from pctoslip() in core.c -/

/-- Byte-stuffing of one payload byte, from the loop body of `pctoslip()`:
END becomes ESC INPKT_END, ESC becomes ESC INPKT_ESC, anything else is
copied through. -/
def stuffByte (b : Nat) : List Nat :=
  if b = SLIP_END then [SLIP_ESC, INPKT_END]
  else if b = SLIP_ESC then [SLIP_ESC, INPKT_ESC]
  else [b]

/-- Byte-stuffing of a byte sequence (the `for (dpix = 0; ...)` loop of
`pctoslip()`). -/
def slipstuff : List Nat → List Nat
  | [] => []
  | b :: rest => stuffByte b ++ slipstuff rest

/-- The two CRC trailer bytes `pctoslip()` appends to the packet:
`pcpkt[len] = crc >> 8; pcpkt[len+1] = crc & 0x00ff;`. -/
def crcBytes (p : List Nat) : List Nat := [crc16 p >>> 8, crc16 p &&& 0xff]

/-- `pctoslip(pcpkt, len, slppkt)` from core.c: reject over-long input
(`len > PC_PKTLEN` returns 0 bytes), append the CRC trailer, then emit
START, the stuffed bytes, and END. -/
def pctoslip (pcpkt : List Nat) : List Nat :=
  if PC_PKTLEN < pcpkt.length then []
  else SLIP_END :: (slipstuff (pcpkt ++ crcBytes pcpkt) ++ [SLIP_END])

/-! ### The receive scanner, from receivePkt() in core.c -/

/-- The state that the byte-scanning loop of `receivePkt()` carries:
`slstate` is the static `s_slstate`, `pcpkt` the decoded bytes
`pcpkt[0..dpix)`, `pkts` the packets handed to `dispatch_packet` in
order, `badslip` the number of `pclog(M_BADSLIP, ...)` protocol-error
log lines emitted. -/
structure RxState where
  slstate : Nat
  pcpkt : List Nat
  pkts : List (List Nat)
  badslip : Nat
deriving DecidableEq, Repr

/-- The `for (i = 0; i < Slix; i++)` scanning loop of `receivePkt()` in
core.c, transcribed branch for branch on the remaining buffer bytes:

* END while IN_PACKET dispatches a non-empty decoded packet, clears the
  decode index and keeps scanning after the END; END in any other state
  falls through the first `if` with no effect;
* ESC while IN_PACKET enters INESCAPE; ESC in any other state logs
  M_BADSLIP, clears the decode index, re-enters IN_PACKET, and resumes
  after the ESC with the buffer shortened by one trailing byte
  (`Slix = Slix - i - 1` keeps one byte fewer than the memmove copied);
* INPKT_END / INPKT_ESC while INESCAPE append the unescaped byte;
* a zero byte while SKIP_FIRST_ZEROES is dropped;
* a nonzero byte while SKIP_FIRST_ZEROES is appended and enters
  IN_PACKET (its `c == SLIP_END` sub-branch is dead code: END was
  already consumed by the first branch of the chain);
* anything else is appended as a normal character. -/
def slipScan : List Nat → RxState → RxState
  | [], s => s
  | c :: rest, s =>
    if c = SLIP_END then
      if s.slstate = IN_PACKET then
        let pkts1 := if s.pcpkt ≠ [] then s.pkts ++ [s.pcpkt] else s.pkts
        slipScan rest { s with pcpkt := [], pkts := pkts1 }
      else
        slipScan rest s
    else if c = SLIP_ESC then
      if s.slstate = IN_PACKET then
        slipScan rest { s with slstate := INESCAPE }
      else
        slipScan rest.dropLast
          { s with slstate := IN_PACKET, pcpkt := [], badslip := s.badslip + 1 }
    else if c = INPKT_END ∧ s.slstate = INESCAPE then
      slipScan rest { s with pcpkt := s.pcpkt ++ [SLIP_END], slstate := IN_PACKET }
    else if c = INPKT_ESC ∧ s.slstate = INESCAPE then
      slipScan rest { s with pcpkt := s.pcpkt ++ [SLIP_ESC], slstate := IN_PACKET }
    else if c = 0 ∧ s.slstate = SKIP_FIRST_ZEROES then
      slipScan rest s
    else if c ≠ 0 ∧ s.slstate = SKIP_FIRST_ZEROES then
      if c = SLIP_END then
        slipScan rest { s with slstate := IN_PACKET }
      else
        slipScan rest { s with pcpkt := s.pcpkt ++ [c], slstate := IN_PACKET }
    else
      slipScan rest { s with pcpkt := s.pcpkt ++ [c] }
termination_by buf _ => buf.length
decreasing_by
  all_goals simp [List.length_dropLast]
  all_goals omega

/-! ### The packet router, from dispatch_packet() in core.c -/

/-- One entry of the `CORE Core[NUM_CORE]` table (core.h struct CORE):
`slot_id` is an `int` (initialized to -1 by `globalinit()` in main.c),
`core_id` the FPGA core number, and `pcb` records whether the
packet-arrival callback pointer is non-null. -/
structure CoreEntry where
  slot_id : Int
  core_id : Nat
  pcb : Bool
deriving DecidableEq, Repr

/-- The value `globalinit()` in main.c gives a core table entry:
`slot_id = -1`, `pcb = NULL`. -/
def coreInit : CoreEntry := ⟨-1, 0, false⟩

/-- Outcome of `dispatch_packet()`: dropped with a `bogus` code and an
M_BADPKT log, discarded with an M_NOSO log because the target core has
no callback, or handed to the core's driver callback as
`(pcb)(&Slots[slot_id], ppkt, len - 2)`. -/
inductive DispatchResult where
  | dropped (bogus : Nat)
  | nodriver (core_id : Nat)
  | delivered (slot_id : Int) (pkt : List Nat) (len : Nat)
deriving DecidableEq, Repr

/-- The `bogus` sanity-check cascade of `dispatch_packet()` in core.c:
1 = runt frame (fewer than 4 header + 2 CRC bytes), 2 = CRC mismatch,
3 = cmd op field is neither read nor write, 4 = core index out of
range, 5 = remaining-count mismatch on a read response, 0 = packet OK.
`requested_bytes`, `returned_bytes` and `remaining_bytes` are C `int`s,
hence `Int` here (`len - 7` can be negative for `len = 6`). -/
def dispatch_bogus (inbuf : List Nat) : Nat :=
  let len := inbuf.length
  let cmd := inbuf.getD 0 0
  let pktcore := inbuf.getD 1 0 &&& 0x0f
  if len < 6 then 1
  else if crc16 inbuf ≠ 0 then 2
  else if cmd &&& PC_CMD_OP_MASK = 0 then 3
  else if NUM_CORE ≤ pktcore then 4
  else if cmd &&& PC_CMD_OP_READ ≠ 0 then
    let requested_bytes : Int := inbuf.getD 3 0
    let returned_bytes : Int := (len : Int) - 7
    let remaining_bytes : Int := inbuf.getD (len - 3) 0
    if remaining_bytes ≠ requested_bytes - returned_bytes then 5 else 0
  else 0

/-- `dispatch_packet(inbuf, len)` from core.c: run the sanity checks,
then route the packet to `Core[pktcore]` where
`pktcore = ppkt->core & 0x0f`; the packet handed to the callback is the
unmodified input buffer and the length argument is `len - 2`. -/
def dispatch_packet (cores : List CoreEntry) (inbuf : List Nat) :
    DispatchResult :=
  let pktcore := inbuf.getD 1 0 &&& 0x0f
  let bogus := dispatch_bogus inbuf
  if bogus ≠ 0 then .dropped bogus
  else
    let ce := cores.getD pktcore coreInit
    if ce.pcb then .delivered ce.slot_id inbuf (inbuf.length - 2)
    else .nodriver ce.core_id

/-! ### The transmit path, from pc_tx_pkt() in core.c -/

/-- The in-place mutation `inpkt->cmd |= 0xf0; inpkt->core |= 0xe0;`
performed by `pc_tx_pkt()` before SLIP encoding (core.c lines 107-108);
byte 0 of a PC_PKT is `cmd` and byte 1 is `core`. -/
def pc_tx_force (pkt : List Nat) : List Nat :=
  match pkt with
  | cmd :: core :: rest => (cmd ||| 0xf0) :: (core ||| 0xe0) :: rest
  | other => other

/-- Environment of one `pc_tx_pkt()` call: whether `fpgaFD != -1`, the
value returned by `write()`, and whether `errno == EAGAIN` at that
point. -/
structure TxEnv where
  connected : Bool
  sntcount : Int
  eagain : Bool
deriving DecidableEq, Repr

/-- `pc_tx_pkt(pcore, inpkt, len)` from core.c, returning the function's
return value: -1 for a short packet (`len < 4`), -1 when not connected
to the board, the raw `write()` return value `sntcount` when
`sntcount != txcount` (logging unless it is an EAGAIN -1), and 0 when
the whole encoded frame was written. -/
def pc_tx_pkt (env : TxEnv) (inpkt : List Nat) (len : Nat) : Int :=
  if len < 4 then -1
  else
    let forced := pc_tx_force (inpkt.take len)
    if env.connected = false then -1
    else
      let txcount : Int := (pctoslip forced).length
      if env.sntcount ≠ txcount then env.sntcount else 0

/-! ### The basys3 and hostserial drivers -/

/-- basys3.c: register number of the switches resource. -/
def BASYS_REG_SWITCHES : Nat := 0x00

/-- basys3.c: register number of the driver-ID list. -/
def BASYS_REG_DRIVLIST : Nat := 0x40

/-- hostserial driver: register number of the config resource. -/
def HSR_REG_CONFIG : Nat := 0x00

/-- Lower-case hex digit, as produced by the `%x` conversions of
`sprintf` in the drivers. -/
def hexDigit (n : Nat) : Char :=
  if n < 10 then Char.ofNat (48 + n) else Char.ofNat (87 + n)

/-- `%02x` of a byte value (two lower-case hex digits). -/
def hex2 (b : Nat) : List Char := [hexDigit (b / 16 % 16), hexDigit (b % 16)]

/-- `%06x` of a value below 2^24 (six lower-case hex digits). -/
def hex6 (n : Nat) : List Char :=
  [hexDigit (n / 1048576 % 16), hexDigit (n / 65536 % 16),
   hexDigit (n / 4096 % 16), hexDigit (n / 256 % 16),
   hexDigit (n / 16 % 16), hexDigit (n % 16)]

/-- Externally visible calls a driver callback makes, in program order:
`del_timer(handle)`, `send_ui(msg, len, cn)`, `prompt(cn)`,
`bcst_ui(msg, len, &bkey)`, `pclog(msg)`. -/
inductive Act where
  | delTimer (handle : Nat)
  | sendUi (msg : List Char) (cn : Int)
  | uiPrompt (cn : Int)
  | bcstUi (msg : List Char) (bkey : Nat)
  | logMsg (msg : String)
deriving DecidableEq, Repr

/-- The mutable state of one basys3 driver instance that its
`packet_hdlr()` and the switches arm of `usercmd()` touch: the
BASYSDEV fields `lastswitch`, `ptimer` (0 = no timer outstanding) and
`drivlist`, plus the switches resource's `uilock` (-1 = unlocked) and
broadcast key `bkey`. -/
structure B3State where
  lastswitch : Nat
  ptimer : Nat
  drivlist : List Nat
  uilock : Int
  bkey : Nat
deriving DecidableEq, Repr

/-- `packet_hdlr()` of basys3.c, transcribed branch for branch:

* a write response (`(cmd & PC_CMD_OP_MASK) == PC_CMD_OP_WRITE`)
  cancels the ack watchdog if one is outstanding and returns;
* a read response for the driver-ID list (`reg == BASYS_REG_DRIVLIST`,
  `count == 2 * NUM_CORE`) stores the IDs and calls `del_timer`
  unconditionally (even on a zero handle), then falls through;
* a read response for the switches (`reg == BASYS_REG_SWITCHES`,
  `count == 3`) formats `"%02x%02x%02x\n"` of data[2], data[1],
  data[0], sends it and a prompt to the locked UI session, clears the
  lock to -1 and calls `del_timer` unconditionally;
* otherwise, if the broadcast key is set, a changed switch value is
  broadcast as `"%06x\n"`. -/
def basys3_packet_hdlr (st : B3State) (cmd reg count : Nat)
    (data : List Nat) : B3State × List Act :=
  if cmd &&& PC_CMD_OP_MASK = PC_CMD_OP_WRITE then
    if st.ptimer ≠ 0 then ({ st with ptimer := 0 }, [.delTimer st.ptimer])
    else (st, [])
  else
    let step1 : B3State × List Act :=
      if cmd &&& PC_CMD_AUTO_MASK ≠ PC_CMD_AUTO_DATA ∧
          reg = BASYS_REG_DRIVLIST ∧ count = 2 * NUM_CORE then
        ({ st with
            drivlist := (List.range NUM_CORE).map
              (fun i => (data.getD (2 * i) 0 <<< 8) + data.getD (2 * i + 1) 0),
            ptimer := 0 },
         [.delTimer st.ptimer])
      else (st, [])
    let st1 := step1.1
    if cmd &&& PC_CMD_AUTO_MASK ≠ PC_CMD_AUTO_DATA ∧
        reg = BASYS_REG_SWITCHES ∧ count = 3 then
      let swval := hex2 (data.getD 2 0) ++ hex2 (data.getD 1 0) ++
        hex2 (data.getD 0 0) ++ ['\n']
      ({ st1 with uilock := -1, ptimer := 0 },
       step1.2 ++ [.sendUi swval st1.uilock, .uiPrompt st1.uilock,
         .delTimer st1.ptimer])
    else if st1.bkey ≠ 0 then
      let newswitch := (data.getD 2 0 <<< 16) + (data.getD 1 0 <<< 8) +
        data.getD 0 0
      if newswitch ≠ st1.lastswitch then
        ({ st1 with lastswitch := newswitch },
         step1.2 ++ [.bcstUi (hex6 newswitch ++ ['\n']) st1.bkey])
      else
        ({ st1 with lastswitch := newswitch }, step1.2)
    else
      (st1, step1.2)

/-- What the switches arm of `usercmd()` leaves in the caller's response
buffer: the E_WRFPGA error text when the transmit failed, or an empty
response (`*plen = 0`). -/
inductive UserResp where
  | txerr
  | empty
deriving DecidableEq, Repr

/-- The `(cmd == PCGET) && (rscid == RSC_SWITCHES)` arm of `usercmd()`
in basys3.c (lines 322-346): build a read packet for the three switch
registers, hand it to `pc_tx_pkt` (whose return value is the `txret`
argument here); on failure report E_WRFPGA and change nothing, on
success arm the 100 ms ack watchdog if none is outstanding (the fresh
`add_timer` handle is the `newTimer` argument), lock the switches
resource to session `cn` and return an empty response.  The second
component of the result is the response, the third the 4-byte packet
passed to `pc_tx_pkt`. -/
def basys3_get_switches (st : B3State) (cn : Int) (core_id : Nat)
    (txret : Int) (newTimer : Nat) : B3State × UserResp × List Nat :=
  let pkt := [PC_CMD_OP_READ ||| PC_CMD_AUTOINC, core_id,
    BASYS_REG_SWITCHES, 3]
  if txret ≠ 0 then (st, .txerr, pkt)
  else
    ({ st with ptimer := if st.ptimer = 0 then newTimer else st.ptimer,
               uilock := cn },
     .empty, pkt)

/-- The HSRDEV state touched by the hostserial driver's packet handler. -/
structure HsrState where
  ptimer : Nat
  baud : Nat
  enabled : Nat
deriving DecidableEq, Repr

/-- `packet_hdlr()` of the hostserial driver: a write response cancels
the outstanding ack watchdog; a one-byte read response for the config
register logs a buffer overflow; anything else logs an invalid-packet
message. -/
def hostserial_packet_hdlr (st : HsrState) (cmd reg count : Nat) :
    HsrState × List Act :=
  if cmd &&& PC_CMD_OP_MASK = PC_CMD_OP_WRITE then
    if st.ptimer ≠ 0 then ({ st with ptimer := 0 }, [.delTimer st.ptimer])
    else (st, [])
  else if cmd &&& PC_CMD_OP_MASK = PC_CMD_OP_READ ∧ reg = HSR_REG_CONFIG ∧
      count = 1 then
    (st, [.logMsg "Host Serial Buffer Overflow Error"])
  else
    (st, [.logMsg "invalid hostserial packet from board to host"])

/-! ### Concrete fixtures used by witnesses and counterexamples -/

/-- A core table in which every core has a registered callback and
`slot_id` 2. -/
def coresAll : List CoreEntry :=
  List.replicate NUM_CORE ⟨2, 0, true⟩

/-- A CRC-correct 6-byte inbound frame whose `cmd` byte 0xf8 and `core`
byte 0xe5 still carry the FPGA sanity nibbles. -/
def frameE5 : List Nat :=
  [0xf8, 0xe5, 0, 0] ++ crcBytes [0xf8, 0xe5, 0, 0]

/-- A CRC-correct 8-byte read-response frame: header cmd=0x04 (read),
core=2, reg=0, count=1, one data byte, remaining byte 0. -/
def frameRead : List Nat :=
  [0x04, 0x02, 0, 1, 0x55, 0] ++ crcBytes [0x04, 0x02, 0, 1, 0x55, 0]

/-- A basys3 driver state with an outstanding watchdog (handle 5) and
the switches resource locked to UI session 3. -/
def b3Locked : B3State := ⟨0, 5, List.replicate NUM_CORE 0, 3, 0⟩

/-! ## Helper lemmas about the receive scanner -/

theorem slipScan_nil (s : RxState) : slipScan [] s = s := by
  simp [slipScan]

theorem slipScan_end_inpkt (rest : List Nat) (s : RxState)
    (h : s.slstate = IN_PACKET) :
    slipScan (SLIP_END :: rest) s =
      slipScan rest
        { s with pcpkt := [],
                 pkts := if s.pcpkt ≠ [] then s.pkts ++ [s.pcpkt] else s.pkts } := by
  rw [slipScan.eq_def]
  simp [h]

theorem slipScan_esc_inpkt (rest : List Nat) (s : RxState)
    (h : s.slstate = IN_PACKET) :
    slipScan (SLIP_ESC :: rest) s =
      slipScan rest { s with slstate := INESCAPE } := by
  rw [slipScan.eq_def]
  simp [h, SLIP_ESC, SLIP_END, IN_PACKET]

theorem slipScan_unesc_end (rest : List Nat) (s : RxState)
    (h : s.slstate = INESCAPE) :
    slipScan (INPKT_END :: rest) s =
      slipScan rest
        { s with pcpkt := s.pcpkt ++ [SLIP_END], slstate := IN_PACKET } := by
  rw [slipScan.eq_def]
  simp [h, SLIP_ESC, SLIP_END, INPKT_END, INESCAPE, IN_PACKET]

theorem slipScan_unesc_esc (rest : List Nat) (s : RxState)
    (h : s.slstate = INESCAPE) :
    slipScan (INPKT_ESC :: rest) s =
      slipScan rest
        { s with pcpkt := s.pcpkt ++ [SLIP_ESC], slstate := IN_PACKET } := by
  rw [slipScan.eq_def]
  simp [h, SLIP_ESC, SLIP_END, INPKT_END, INPKT_ESC, INESCAPE, IN_PACKET]

theorem slipScan_normal (c : Nat) (rest : List Nat) (s : RxState)
    (h : s.slstate = IN_PACKET) (h1 : c ≠ SLIP_END) (h2 : c ≠ SLIP_ESC) :
    slipScan (c :: rest) s =
      slipScan rest { s with pcpkt := s.pcpkt ++ [c] } := by
  rw [slipScan.eq_def]
  simp only [h, SLIP_ESC, SLIP_END, INPKT_END, INPKT_ESC, INESCAPE,
    IN_PACKET, SKIP_FIRST_ZEROES] at h1 h2 ⊢
  rw [if_neg h1, if_neg h2, if_neg (by omega), if_neg (by omega),
    if_neg (by omega), if_neg (by omega)]

theorem slipScan_stuff (xs : List Nat) (rest acc : List Nat)
    (pk : List (List Nat)) (n : Nat) :
    slipScan (slipstuff xs ++ rest) ⟨IN_PACKET, acc, pk, n⟩ =
      slipScan rest ⟨IN_PACKET, acc ++ xs, pk, n⟩ := by
  induction xs generalizing acc with
  | nil => simp [slipstuff]
  | cons b bs ih =>
    by_cases hb1 : b = SLIP_END
    · subst hb1
      rw [slipstuff]
      rw [show stuffByte SLIP_END = [SLIP_ESC, INPKT_END] by simp [stuffByte]]
      simp only [List.cons_append, List.nil_append]
      rw [slipScan_esc_inpkt _ _ rfl, slipScan_unesc_end _ _ rfl]
      rw [ih]
      simp
    · by_cases hb2 : b = SLIP_ESC
      · subst hb2
        rw [slipstuff]
        rw [show stuffByte SLIP_ESC = [SLIP_ESC, INPKT_ESC] by
          simp [stuffByte, SLIP_ESC, SLIP_END]]
        simp only [List.cons_append, List.nil_append]
        rw [slipScan_esc_inpkt _ _ rfl, slipScan_unesc_esc _ _ rfl]
        rw [ih]
        simp
      · rw [slipstuff]
        rw [show stuffByte b = [b] by simp [stuffByte, hb1, hb2]]
        simp only [List.cons_append, List.nil_append]
        rw [slipScan_normal b _ _ rfl hb1 hb2]
        rw [ih]
        simp

/-! ## Claim C1: SLIP encode/decode round trip -/

/-- Claim C1: for every packet P of length between 4 and 512 bytes,
SLIP-encoding P with `pctoslip` (which appends the big-endian CRC
trailer and byte-stuffs END/ESC between an opening and closing END) and
then feeding the resulting frame byte for byte to the receive state
machine of `receivePkt` starting in the in-packet state delivers
exactly one packet to `dispatch_packet`, namely P followed by its
2-byte CRC; no protocol error is logged and the decoder ends back in
the in-packet state with an empty partial packet. -/
theorem slip_roundtrip (P : List Nat) (h4 : 4 ≤ P.length)
    (h512 : P.length ≤ 512) :
    slipScan (pctoslip P) ⟨IN_PACKET, [], [], 0⟩ =
      ⟨IN_PACKET, [], [P ++ crcBytes P], 0⟩ := by
  rw [pctoslip, if_neg (by simp [PC_PKTLEN]; omega)]
  rw [slipScan_end_inpkt _ _ rfl]
  simp only [ne_eq, not_true_eq_false, if_false]
  rw [slipScan_stuff (P ++ crcBytes P) [SLIP_END] [] [] 0]
  rw [slipScan_end_inpkt _ _ rfl]
  rw [slipScan_nil]
  have hne : ([] : List Nat) ++ (P ++ crcBytes P) ≠ [] := by
    simp only [List.nil_append, ne_eq, List.append_eq_nil]
    intro ⟨hP, _⟩
    rw [hP] at h4
    simp at h4
  simp [hne]
  intro hP
  simp [crcBytes]

/-- Witness for C1 at the concrete packet 01 02 03 04. -/
theorem slip_roundtrip_witness :
    4 ≤ ([1, 2, 3, 4] : List Nat).length ∧
    ([1, 2, 3, 4] : List Nat).length ≤ 512 ∧
    slipScan (pctoslip [1, 2, 3, 4]) ⟨IN_PACKET, [], [], 0⟩ =
      ⟨IN_PACKET, [], [[1, 2, 3, 4] ++ crcBytes [1, 2, 3, 4]], 0⟩ :=
  ⟨by norm_num, by norm_num,
    slip_roundtrip [1, 2, 3, 4] (by norm_num) (by norm_num)⟩

/-! ## Claim C2: behaviour on a non-escape byte after ESC -/

theorem land255 (a : Nat) : a &&& 255 = a % 256 :=
  Nat.and_pow_two_sub_one_eq_mod a 8

/-- Claim C2 (refuting evaluation): feeding C0 01 DB FF 02 C0 to the
receive state machine in the in-packet state logs no protocol error,
discards nothing and delivers nothing; the 0xFF after the ESC is
appended as a normal byte with the decoder stuck in the in-escape
state, the closing C0 is silently ignored, and a following valid frame
(here the encoding of 05 06 07 08) is swallowed into the stuck partial
packet instead of being parsed, contradicting the claimed
log-discard-resume behaviour. -/
theorem slip_escape_no_recovery :
    slipScan [0xc0, 0x01, 0xdb, 0xff, 0x02, 0xc0] ⟨IN_PACKET, [], [], 0⟩ =
      ⟨INESCAPE, [0x01, 0xff, 0x02], [], 0⟩ ∧
    slipScan ([0xc0, 0x01, 0xdb, 0xff, 0x02, 0xc0] ++ pctoslip [5, 6, 7, 8])
        ⟨IN_PACKET, [], [], 0⟩ =
      ⟨INESCAPE, [0x01, 0xff, 0x02, 5, 6, 7, 8, 22, 122], [], 0⟩ := by
  constructor
  · simp [slipScan, SLIP_END, SLIP_ESC, INPKT_END, INPKT_ESC, IN_PACKET,
      INESCAPE, SKIP_FIRST_ZEROES]
  · rw [show pctoslip [5, 6, 7, 8] = [192, 5, 6, 7, 8, 22, 122, 192] by
      simp [pctoslip, PC_PKTLEN, crcBytes, crc16, crc16step, land255,
        slipstuff, stuffByte, SLIP_END, SLIP_ESC]]
    simp [slipScan, SLIP_END, SLIP_ESC, INPKT_END, INPKT_ESC, IN_PACKET,
      INESCAPE, SKIP_FIRST_ZEROES]

/-! ## Claims about the packet router -/

theorem and15_lt (x : Nat) : x &&& 0x0f < NUM_CORE := by
  have h : x &&& 0x0f ≤ 0x0f := Nat.and_le_right
  simp only [NUM_CORE]
  omega

theorem bogus_ne_four (inbuf : List Nat) : dispatch_bogus inbuf ≠ 4 := by
  have h15 := and15_lt (inbuf.getD 1 0)
  simp only [dispatch_bogus]
  split_ifs <;> omega

theorem bogus_zero_crc (inbuf : List Nat) :
    dispatch_bogus inbuf = 0 → crc16 inbuf = 0 := by
  intro h
  simp only [dispatch_bogus] at h
  split_ifs at h
  all_goals omega

theorem bogus_zero_read (inbuf : List Nat) :
    dispatch_bogus inbuf = 0 → inbuf.getD 0 0 &&& PC_CMD_OP_READ ≠ 0 →
    (inbuf.getD (inbuf.length - 3) 0 : Int) =
      (inbuf.getD 3 0 : Int) - ((inbuf.length : Int) - 7) := by
  intro h hr
  simp only [dispatch_bogus] at h
  split_ifs at h
  all_goals omega

theorem delivered_inv (cores : List CoreEntry) (inbuf : List Nat)
    (s : Int) (p : List Nat) (l : Nat)
    (hd : dispatch_packet cores inbuf = .delivered s p l) :
    dispatch_bogus inbuf = 0 ∧
    (cores.getD (inbuf.getD 1 0 &&& 0x0f) coreInit).pcb = true ∧
    s = (cores.getD (inbuf.getD 1 0 &&& 0x0f) coreInit).slot_id ∧
    p = inbuf ∧ l = inbuf.length - 2 := by
  simp only [dispatch_packet] at hd
  split_ifs at hd with h1 h2
  · simp only [DispatchResult.delivered.injEq] at hd
    exact ⟨by omega, h2, hd.1.symm, hd.2.1.symm, hd.2.2.symm⟩

/-- Claim C3: a frame is handed to a driver packet callback only when
its CRC verifies (crc16 over the whole frame including the trailer is
0), the target core's callback is non-null, and -- given the table
invariant that `globalinit()` and the enumerator maintain (a core with
a registered callback has a slot index in [0, MX_SLOT)) -- the core's
`slot_id` indexes the slot table; a frame failing the CRC check is
logged and discarded, and a frame for a core with a null callback is
logged and discarded without reaching any driver. -/
theorem dispatch_guarded (cores : List CoreEntry) (inbuf : List Nat)
    (mxslot : Nat)
    (hinv : ∀ i < NUM_CORE, (cores.getD i coreInit).pcb = true →
      0 ≤ (cores.getD i coreInit).slot_id ∧
      (cores.getD i coreInit).slot_id < (mxslot : Int)) :
    (∀ s p l, dispatch_packet cores inbuf = .delivered s p l →
      crc16 inbuf = 0 ∧
      (cores.getD (inbuf.getD 1 0 &&& 0x0f) coreInit).pcb = true ∧
      0 ≤ s ∧ s < (mxslot : Int)) ∧
    (crc16 inbuf ≠ 0 →
      ∀ s p l, dispatch_packet cores inbuf ≠ .delivered s p l) ∧
    ((cores.getD (inbuf.getD 1 0 &&& 0x0f) coreInit).pcb = false →
      ∀ s p l, dispatch_packet cores inbuf ≠ .delivered s p l) := by
  refine ⟨?_, ?_, ?_⟩
  · intro s p l hd
    obtain ⟨hb, hp, hs, -, -⟩ := delivered_inv cores inbuf s p l hd
    have hv := hinv _ (and15_lt (inbuf.getD 1 0)) hp
    exact ⟨bogus_zero_crc inbuf hb, hp, by omega, by omega⟩
  · intro hcrc s p l hd
    obtain ⟨hb, -, -, -, -⟩ := delivered_inv cores inbuf s p l hd
    exact hcrc (bogus_zero_crc inbuf hb)
  · intro hpcb s p l hd
    obtain ⟨-, hp, -, -, -⟩ := delivered_inv cores inbuf s p l hd
    rw [hpcb] at hp
    cases hp

/-- Witness for C3: the concrete read-response frame `frameRead` is
delivered through a fully-populated core table with slot index 2, and
the three guard conditions hold there. -/
theorem dispatch_guarded_witness :
    crc16 frameRead = 0 ∧
    (coresAll.getD (frameRead.getD 1 0 &&& 0x0f) coreInit).pcb = true ∧
    (0 : Int) ≤ 2 ∧ (2 : Int) < ((12 : Nat) : Int) :=
  (dispatch_guarded coresAll frameRead 12 (by decide)).1 2 frameRead 6
    (by decide)

/-! ## Claim C4: the CRC trailer self-checks to zero -/

theorem crc16step_lt (crc b : Nat) : crc16step crc b < 65536 := by
  unfold crc16step
  exact Nat.mod_lt _ (by norm_num)

theorem crc16_foldl_lt (p : List Nat) (init : Nat) (h : init < 65536) :
    p.foldl crc16step init < 65536 := by
  induction p generalizing init with
  | nil => simpa using h
  | cons b bs ih => exact ih _ (crc16step_lt init b)

theorem crc16_lt (p : List Nat) : crc16 p < 65536 :=
  crc16_foldl_lt p 0 (by norm_num)

theorem crc16step_hi (a : Nat) (h : a < 65536) :
    crc16step a (a >>> 8) = a % 256 * 256 := by
  unfold crc16step
  have h8 : a >>> 8 < 256 := by
    rw [Nat.shiftRight_eq_div_pow]
    omega
  rw [Nat.mod_eq_of_lt h8]
  simp only [Nat.xor_self, Nat.zero_mod, Nat.zero_shiftRight, Nat.zero_xor,
    Nat.zero_shiftLeft, Nat.xor_zero]
  rw [Nat.shiftLeft_eq]
  norm_num
  rw [show (65536 : Nat) = 256 * 256 from rfl]
  exact Nat.mul_mod_mul_right 256 a 256

theorem crc16step_lo (a : Nat) :
    crc16step (a % 256 * 256) (a &&& 255) = 0 := by
  unfold crc16step
  have h1 : (a % 256 * 256) >>> 8 = a % 256 := by
    rw [Nat.shiftRight_eq_div_pow]
    norm_num
  rw [h1, land255]
  rw [Nat.mod_eq_of_lt (show a % 256 < 256 by omega)]
  simp only [Nat.xor_self, Nat.zero_mod, Nat.zero_shiftRight, Nat.zero_xor,
    Nat.zero_shiftLeft, Nat.xor_zero]
  rw [Nat.shiftLeft_eq]
  norm_num
  omega

/-- Claim C4: for every byte sequence P, appending the two big-endian
CRC trailer bytes written by `pctoslip` (`crc >> 8` then `crc & 0xff`)
and running `crc16` over the extended sequence yields 0; this is what
makes the receiver's check `crc16(inbuf, len) == 0` accept exactly the
frames whose trailer matches. -/
theorem crc16_append_trailer (P : List Nat) : crc16 (P ++ crcBytes P) = 0 := by
  rw [crc16, crcBytes, List.foldl_append]
  show crc16step (crc16step (crc16 P) (crc16 P >>> 8)) (crc16 P &&& 255) = 0
  rw [crc16step_hi _ (crc16_lt P), crc16step_lo]

/-! ## Claim C5: runt frames and the remaining-count check -/

/-- Claim C5: `dispatch_packet` rejects every frame shorter than 6
bytes (4 header + 2 CRC) with bogus code 1, and a frame whose cmd has
the read op bit set is delivered only if its remaining byte (third
byte from the end) equals the requested count minus the returned data
bytes (`len - 7`). -/
theorem dispatch_runt_remaining (cores : List CoreEntry) (inbuf : List Nat) :
    (inbuf.length < 6 → dispatch_packet cores inbuf = .dropped 1) ∧
    (∀ s p l, dispatch_packet cores inbuf = .delivered s p l →
      inbuf.getD 0 0 &&& PC_CMD_OP_READ ≠ 0 →
      (inbuf.getD (inbuf.length - 3) 0 : Int) =
        (inbuf.getD 3 0 : Int) - ((inbuf.length : Int) - 7)) := by
  constructor
  · intro hlen
    have hb : dispatch_bogus inbuf = 1 := by
      simp only [dispatch_bogus]
      rw [if_pos hlen]
    simp only [dispatch_packet, hb]
    norm_num
  · intro s p l hd hr
    obtain ⟨hb, -, -, -, -⟩ := delivered_inv cores inbuf s p l hd
    exact bogus_zero_read inbuf hb hr

/-- Witness for C5: a 2-byte runt frame is dropped with code 1, and the
delivered read response `frameRead` satisfies the remaining-count
equation. -/
theorem dispatch_runt_remaining_witness :
    dispatch_packet coresAll [1, 2] = .dropped 1 ∧
    (frameRead.getD (frameRead.length - 3) 0 : Int) =
      (frameRead.getD 3 0 : Int) - ((frameRead.length : Int) - 7) :=
  ⟨(dispatch_runt_remaining coresAll [1, 2]).1 (by norm_num),
   (dispatch_runt_remaining coresAll frameRead).2 2 frameRead 6
     (by decide) (by decide)⟩

/-! ## Claim C6: sanity nibbles on transmit and receive -/

/-- Claim C6 (refuting evaluation): the CRC-valid frame `frameE5`, whose
cmd byte 0xf8 and core byte 0xe5 still carry the FPGA sanity nibbles,
is handed to the driver callback as-is: the dispatched packet is the
unmodified buffer whose cmd and core high nibbles are still 0xf and
0xe, so the nibbles are not stripped before dispatch. -/
theorem sanity_nibbles_not_stripped :
    dispatch_packet coresAll frameE5 = .delivered 2 frameE5 4 ∧
    frameE5.getD 0 0 >>> 4 = 0xf ∧ frameE5.getD 1 0 >>> 4 = 0xe := by
  decide

set_option maxRecDepth 4096 in
theorem or_f0_hi : ∀ c < 256, (c ||| 0xf0) >>> 4 = 0xf := by decide

theorem or_e0_hi : ∀ c < 16, (c ||| 0xe0) >>> 4 = 0xe := by decide

/-- Claim C6 as amended: on transmit `pc_tx_pkt` forces the cmd high
nibble to 0xF and the core high nibble to 0xE (for the byte values the
drivers send: cmd below 0x100 and core a core index below 0x10) before
encoding; on receive `dispatch_packet` masks the core byte with 0x0f
only to select the target core, and the packet handed to the driver
callback is the unmodified frame -- the sanity nibbles are not
stripped. -/
theorem sanity_nibbles_amended (cmd core' : Nat) (rest : List Nat)
    (hc : cmd < 256) (hco : core' < 16)
    (cores : List CoreEntry) (inbuf : List Nat) (s : Int) (p : List Nat)
    (l : Nat) (hd : dispatch_packet cores inbuf = .delivered s p l) :
    pc_tx_force (cmd :: core' :: rest) =
      (cmd ||| 0xf0) :: (core' ||| 0xe0) :: rest ∧
    (cmd ||| 0xf0) >>> 4 = 0xf ∧ (core' ||| 0xe0) >>> 4 = 0xe ∧
    p = inbuf ∧ l = inbuf.length - 2 := by
  obtain ⟨-, -, -, hp, hl⟩ := delivered_inv cores inbuf s p l hd
  exact ⟨rfl, or_f0_hi cmd hc, or_e0_hi core' hco, hp, hl⟩

/-- Witness for C6 as amended, at cmd 0x06, core 2 and the delivered
frame `frameRead`. -/
theorem sanity_nibbles_amended_witness :
    pc_tx_force (6 :: 2 :: [0, 3]) = (6 ||| 0xf0) :: (2 ||| 0xe0) :: [0, 3] ∧
    (6 ||| 0xf0) >>> 4 = 0xf ∧ (2 ||| 0xe0) >>> 4 = 0xe ∧
    frameRead = frameRead ∧ 6 = frameRead.length - 2 :=
  sanity_nibbles_amended 6 2 [0, 3] (by norm_num) (by norm_num)
    coresAll frameRead 2 frameRead 6 (by decide)

/-! ## Claim C7: pc_tx_pkt return values -/

/-- Claim C7 (refuting evaluation): `pc_tx_pkt` returns 0 when the
whole 8-byte encoded frame was written, but an invalid length 2 returns
-1 where the core.h contract promises -2 for invalid input, a partial
write of 3 of 8 bytes returns the positive raw count 3 rather than a
negative error code, and a would-block -1 (EAGAIN) is indistinguishable
in the return value from a fatal -1. -/
theorem pc_tx_return_quirks :
    pc_tx_pkt ⟨true, 8, false⟩ [8, 5, 0, 0] 4 = 0 ∧
    pc_tx_pkt ⟨true, 8, true⟩ [8, 5, 0, 0] 2 = -1 ∧
    pc_tx_pkt ⟨true, 3, true⟩ [8, 5, 0, 0] 4 = 3 ∧
    pc_tx_pkt ⟨true, -1, true⟩ [8, 5, 0, 0] 4 =
      pc_tx_pkt ⟨true, -1, false⟩ [8, 5, 0, 0] 4 := by
  decide

/-! ## Claim C8: the write ack cancels the watchdog -/

/-- Claim C8: in both the basys3 and the hostserial packet handlers,
when a watchdog timer is outstanding (ptimer nonzero) and a packet
whose cmd op field equals the write op arrives, the handler calls
`del_timer` on the stored handle and resets the handle to 0, leaving no
watchdog armed. -/
theorem write_ack_cancels (st : B3State) (hs : HsrState)
    (cmd reg count : Nat) (data : List Nat)
    (hb : st.ptimer ≠ 0) (hh : hs.ptimer ≠ 0)
    (hw : cmd &&& PC_CMD_OP_MASK = PC_CMD_OP_WRITE) :
    basys3_packet_hdlr st cmd reg count data =
      ({ st with ptimer := 0 }, [.delTimer st.ptimer]) ∧
    hostserial_packet_hdlr hs cmd reg count =
      ({ hs with ptimer := 0 }, [.delTimer hs.ptimer]) := by
  constructor
  · simp only [basys3_packet_hdlr]
    rw [if_pos hw, if_pos hb]
  · simp only [hostserial_packet_hdlr]
    rw [if_pos hw, if_pos hh]

/-- Witness for C8 at a write-response cmd 0x08 with outstanding timer
handles 5 and 7. -/
theorem write_ack_cancels_witness :
    basys3_packet_hdlr b3Locked 8 0 0 [] =
      ({ b3Locked with ptimer := 0 }, [Act.delTimer b3Locked.ptimer]) ∧
    hostserial_packet_hdlr ⟨7, 0, 1⟩ 8 0 0 =
      ({ ptimer := 0, baud := 0, enabled := 1 }, [Act.delTimer 7]) :=
  write_ack_cancels b3Locked ⟨7, 0, 1⟩ 8 0 0 [] (by decide) (by decide)
    (by decide)

/-! ## Claim C9: the pcget switches round trip -/

/-- Claim C9 (refuting evaluation): on the switches read response with
data cc bb aa, the driver sends the seven characters aabbcc and
newline -- six hex digits with no space -- to the locked session, not
the spec text of the form aa bbcc newline. -/
theorem switches_format_counterexample :
    (basys3_packet_hdlr b3Locked 0x86 BASYS_REG_SWITCHES 3
        [0xcc, 0xbb, 0xaa]).2 =
      [.sendUi ['a', 'a', 'b', 'b', 'c', 'c', '\n'] 3, .uiPrompt 3,
        .delTimer 5] ∧
    (['a', 'a', 'b', 'b', 'c', 'c', '\n'] : List Char) ≠
      ['a', 'a', ' ', 'b', 'b', 'c', 'c', '\n'] := by
  decide

/-- Claim C9 as amended: a `pcget basys3 switches` from session cn
returns an empty immediate response, hands the 4-byte read packet
(cmd read+autoinc, the core id, register 0, count 3) to `pc_tx_pkt`,
arms the watchdog if none is outstanding and stores cn into the
switches resource's uilock; when a matching read response (auto bit
set, reg 0, count 3) arrives, the handler sends the six hex digits of
data[2] data[1] data[0] -- with no space -- plus a newline, followed by
a prompt, to exactly the session stored in uilock, then clears the
lock to -1. -/
theorem pcget_switches_flow (st st2 : B3State) (cn : Int)
    (core_id newTimer : Nat) (data : List Nat) (cmd : Nat)
    (hauto : cmd &&& PC_CMD_AUTO_MASK ≠ PC_CMD_AUTO_DATA)
    (hnw : cmd &&& PC_CMD_OP_MASK ≠ PC_CMD_OP_WRITE) :
    basys3_get_switches st cn core_id 0 newTimer =
      ({ st with ptimer := if st.ptimer = 0 then newTimer else st.ptimer,
                 uilock := cn },
       .empty,
       [PC_CMD_OP_READ ||| PC_CMD_AUTOINC, core_id, BASYS_REG_SWITCHES, 3]) ∧
    basys3_packet_hdlr st2 cmd BASYS_REG_SWITCHES 3 data =
      ({ st2 with uilock := -1, ptimer := 0 },
       [.sendUi (hex2 (data.getD 2 0) ++ hex2 (data.getD 1 0) ++
          hex2 (data.getD 0 0) ++ ['\n']) st2.uilock,
        .uiPrompt st2.uilock, .delTimer st2.ptimer]) := by
  constructor
  · simp [basys3_get_switches]
  · simp only [basys3_packet_hdlr]
    rw [if_neg hnw]
    simp [hauto, BASYS_REG_SWITCHES, BASYS_REG_DRIVLIST, NUM_CORE]

/-- Witness for C9 as amended, at session 4, core 2, timer handle 9,
response cmd 0x86 and data cc bb aa. -/
theorem pcget_switches_flow_witness :
    basys3_get_switches b3Locked 4 2 0 9 =
      ({ b3Locked with
          ptimer := if b3Locked.ptimer = 0 then 9 else b3Locked.ptimer,
          uilock := 4 },
       .empty,
       [PC_CMD_OP_READ ||| PC_CMD_AUTOINC, 2, BASYS_REG_SWITCHES, 3]) ∧
    basys3_packet_hdlr b3Locked 0x86 BASYS_REG_SWITCHES 3 [0xcc, 0xbb, 0xaa] =
      ({ b3Locked with uilock := -1, ptimer := 0 },
       [.sendUi (hex2 ([0xcc, 0xbb, 0xaa].getD 2 0) ++
          hex2 ([0xcc, 0xbb, 0xaa].getD 1 0) ++
          hex2 ([0xcc, 0xbb, 0xaa].getD 0 0) ++ ['\n']) b3Locked.uilock,
        .uiPrompt b3Locked.uilock, .delTimer b3Locked.ptimer]) :=
  pcget_switches_flow b3Locked b3Locked 4 2 9 [0xcc, 0xbb, 0xaa] 0x86
    (by decide) (by decide)

/-! ## Claim C10: the core index is always in range -/

/-- Claim C10: the target core index computed by `dispatch_packet` is
the core byte masked with 0x0f and is therefore always below
NUM_CORE = 16, so the bogus = 4 out-of-range rejection branch is
unreachable and every delivered frame indexes the core table within
bounds. -/
theorem core_index_always_valid (cores : List CoreEntry) (inbuf : List Nat) :
    inbuf.getD 1 0 &&& 0x0f < NUM_CORE ∧
    dispatch_bogus inbuf ≠ 4 ∧
    dispatch_packet cores inbuf ≠ .dropped 4 := by
  refine ⟨and15_lt _, bogus_ne_four inbuf, ?_⟩
  simp only [dispatch_packet]
  split_ifs with h1 h2
  · simp only [ne_eq, DispatchResult.dropped.injEq]
    exact bogus_ne_four inbuf
  · simp
  · simp

end Pcdaemon
